import Mathlib

/-
Verification of the sampling-and-reporting pipeline of the IoT environmental
node.  Two firmware variants coexist in the repository:

* `ThingSpeak` — `Projeto_IoT/Projeto_IoT.ino`: running sum/count accumulator
  with N = 5 samples, a plausibility filter on the ultrasonic distance, a
  validity gate at ingest, and a connectivity gate at the top of `loop()`.
* `Sheets` — `unnamed/part_000` (with `unnamed/part_001` the simpler
  precursor): circular-buffer accumulator with N = 4 samples, no distance
  filter, unconditional storage of every reading, lazy BH1750 initialization
  guarded by the `bh1750_iniciado` flag, and an offline check inside
  `enviar_dados_sheets` only.

Real numbers are modelled by `ℚ` (the float arithmetic of the source on the
values of interest is exact), the 32-bit `millis()` counter by `ℕ` reduced
modulo `2^32`, and the externally visible actions of one `loop()` pass by a
list of `Event`s.
-/

/-- Modulus of the 32-bit `unsigned long` millisecond counter (`millis()`). -/
def MILLIS_MOD : ℕ := 4294967296

/-- Unsigned 32-bit subtraction, as computed by
`tempoAtual - ultimoTempoColeta` on `unsigned long` operands. -/
def wrapSub (a b : ℕ) : ℕ :=
  (a % MILLIS_MOD + MILLIS_MOD - b % MILLIS_MOD) % MILLIS_MOD

/-- The report record serialized by `enviar_dados_sheets` in `part_000`:
device means, timestamp and the two alert flags. -/
structure Registro where
  distance : ℚ
  lux : ℚ
  timestamp : ℤ
  alertaProx : Bool
  alertaLux : Bool
deriving DecidableEq

/-- Externally visible actions of one pass of `loop()`:
an offline skip log, an HTTP POST to the Sheets endpoint carrying a record,
or an HTTP GET to the ThingSpeak endpoint carrying the means and MAC. -/
inductive Event where
  | logOffline : Event
  | postSheets : Registro → Event
  | getThingSpeak : ℚ → ℚ → String → Event
deriving DecidableEq

namespace ThingSpeak

/-- `const float MAX_DISTANCE_CM = 350.0` in `Projeto_IoT.ino`. -/
def MAX_DISTANCE_CM : ℚ := 350

/-- `const float MIN_VALID_DISTANCE_CM = 2.0` in `Projeto_IoT.ino`. -/
def MIN_VALID_DISTANCE_CM : ℚ := 2

/-- `const long LEITURA_INTERVALO_MS = 15000`. -/
def LEITURA_INTERVALO_MS : ℕ := 15000

/-- `const int NUM_AMOSTRAS = 5`. -/
def NUM_AMOSTRAS : ℕ := 5

/-- `const long COLETA_INTERVALO_MS = LEITURA_INTERVALO_MS / NUM_AMOSTRAS`. -/
def COLETA_INTERVALO_MS : ℕ := LEITURA_INTERVALO_MS / NUM_AMOSTRAS

/-- Pulse-time to distance conversion `(duration * 0.0343) / 2` performed by
`proximidade()` before its sanity filter. -/
def distanciaMedida (duration : ℕ) : ℚ :=
  ((duration : ℚ) * (343 / 10000)) / 2

/-- The sanity filter of `proximidade()` in `Projeto_IoT.ino`:
`if (distance > MAX_DISTANCE_CM || distance < MIN_VALID_DISTANCE_CM) return -1.0;
return distance;`. -/
def filtroSanidade (distance : ℚ) : ℚ :=
  if MAX_DISTANCE_CM < distance ∨ distance < MIN_VALID_DISTANCE_CM then -1
  else distance

/-- `proximidade()` of `Projeto_IoT.ino`: conversion followed by the filter. -/
def proximidade (duration : ℕ) : ℚ :=
  filtroSanidade (distanciaMedida duration)

/-- `luminosidade()` of `Projeto_IoT.ino`: a negative raw reading from
`readLightLevel()` is mapped to the sentinel `-2.0`. -/
def luminosidade (lux : ℚ) : ℚ :=
  if lux < 0 then -2 else lux

/-- The mutable globals of `Projeto_IoT.ino`'s aggregation:
`ultimoTempoColeta`, `somaDistancia`, `somaLux`, `contadorAmostras`. -/
structure StateA where
  ultimoTempoColeta : ℕ
  somaDistancia : ℚ
  somaLux : ℚ
  contadorAmostras : ℕ
deriving DecidableEq

/-- Startup values of the globals (`0`, `0.0`, `0.0`, `0`). -/
def estadoInicial : StateA :=
  { ultimoTempoColeta := 0, somaDistancia := 0, somaLux := 0
    contadorAmostras := 0 }

/-- The ingest step of `loop()` (lines 249–270):
`leituraValida = (distancia != -1.0) && (lux != -2.0)`; when valid both sums
and the shared counter are updated, otherwise nothing changes. -/
def coleta (distancia lux : ℚ) (s : StateA) : StateA :=
  if distancia ≠ -1 ∧ lux ≠ -2 then
    { s with somaDistancia := s.somaDistancia + distancia
             somaLux := s.somaLux + lux
             contadorAmostras := s.contadorAmostras + 1 }
  else s

/-- The accumulator reset after a dispatch (lines 287–289):
`somaDistancia = 0.0; somaLux = 0.0; contadorAmostras = 0;`. -/
def reinicia (s : StateA) : StateA :=
  { s with somaDistancia := 0, somaLux := 0, contadorAmostras := 0 }

/-- `enviar_dados_thingspeak`: when Wi-Fi is down it logs and returns before
building the request, otherwise it performs exactly one HTTP GET. -/
def enviar_dados_thingspeak (connected : Bool) (distance lux : ℚ)
    (mac : String) : List Event :=
  if connected = false then [Event.logOffline]
  else [Event.getThingSpeak distance lux mac]

/-- One pass of `loop()` in `Projeto_IoT.ino`.  `connectedLoop` is the
`WiFi.status()` sample taken at the top of the loop (a disconnected status
returns early, skipping everything); `connectedSend` is the sample taken
inside `enviar_dados_thingspeak`. -/
def loop (connectedLoop connectedSend : Bool) (tempoAtual : ℕ)
    (distancia lux : ℚ) (mac : String) (s : StateA) : StateA × List Event :=
  if connectedLoop = false then (s, [])
  else
    let s1 :=
      if COLETA_INTERVALO_MS ≤ wrapSub tempoAtual s.ultimoTempoColeta then
        coleta distancia lux { s with ultimoTempoColeta := tempoAtual }
      else s
    if NUM_AMOSTRAS ≤ s1.contadorAmostras then
      let mediaDistancia := s1.somaDistancia / (NUM_AMOSTRAS : ℚ)
      let mediaLux := s1.somaLux / (NUM_AMOSTRAS : ℚ)
      (reinicia s1,
        enviar_dados_thingspeak connectedSend mediaDistancia mediaLux mac)
    else (s1, [])

end ThingSpeak

namespace Sheets

/-- `const long LEITURA_INTERVALO_MS = 10000` in `part_000`. -/
def LEITURA_INTERVALO_MS : ℕ := 10000

/-- `const int NUM_AMOSTRAS = 4`. -/
def NUM_AMOSTRAS : ℕ := 4

/-- `const float LIMIAR_DISTANCIA_CM = 50.0`. -/
def LIMIAR_DISTANCIA_CM : ℚ := 50

/-- `const float LIMIAR_LUX = 30.0`. -/
def LIMIAR_LUX : ℚ := 30

/-- `proximidade()` of `part_000` (and `part_001`): the raw conversion
`(duration * 0.0343) / 2` is returned directly, with no plausibility filter. -/
def proximidade (duration : ℕ) : ℚ :=
  ((duration : ℚ) * (343 / 10000)) / 2

/-- `luminosidade()` of `part_000`/`part_001`.  State is the global flag
`bh1750_iniciado`; `beginOk` is the result of `lightmeter.begin(...)` (queried
only when the flag is unset) and `reading` the result of `readLightLevel()`.
Returns the new flag and the value the function returns. -/
def luminosidade (bh1750_iniciado beginOk : Bool) (reading : ℚ) :
    Bool × ℚ :=
  if bh1750_iniciado = false then
    if beginOk then (true, reading) else (false, -3)
  else (bh1750_iniciado, reading)

/-- A sequence of calls to `luminosidade()`, threading the
`bh1750_iniciado` flag; each call supplies the `begin` outcome and the raw
reading, and the outputs are collected in order. -/
def luminosidadeRun (bh1750_iniciado : Bool) :
    List (Bool × ℚ) → Bool × List ℚ
  | [] => (bh1750_iniciado, [])
  | c :: cs =>
    let r := luminosidade bh1750_iniciado c.1 c.2
    let rest := luminosidadeRun r.1 cs
    (rest.1, r.2 :: rest.2)

/-- `calcular_media(arr, tamanho)`: sums the first `tamanho` entries and
guards the division: `(tamanho > 0) ? (soma / tamanho) : 0.0`. -/
def calcular_media (arr : List ℚ) (tamanho : ℕ) : ℚ :=
  let soma := (arr.take tamanho).sum
  if 0 < tamanho then soma / (tamanho : ℚ) else 0

/-- `enviar_dados_sheets`: when Wi-Fi is down it logs `Pulando envio` and
returns having attempted nothing; otherwise it performs exactly one HTTP
POST carrying the serialized record. -/
def enviar_dados_sheets (connected : Bool) (distance_avg lux_avg : ℚ)
    (timestamp : ℤ) (alertaProx alertaLux : Bool) : List Event :=
  if connected = false then [Event.logOffline]
  else [Event.postSheets
    { distance := distance_avg, lux := lux_avg, timestamp := timestamp
      alertaProx := alertaProx, alertaLux := alertaLux }]

/-- The mutable globals of `part_000`'s aggregation: `ultimoTempoLeitura`,
`indiceAmostra`, `amostrasColetadas` and the two circular arrays. -/
structure StateB where
  ultimoTempoLeitura : ℕ
  indiceAmostra : ℕ
  amostrasColetadas : ℕ
  distarray : List ℚ
  lux_arr : List ℚ
deriving DecidableEq

/-- Startup values of the globals (global arrays zero-initialized). -/
def estadoInicial : StateB :=
  { ultimoTempoLeitura := 0, indiceAmostra := 0, amostrasColetadas := 0
    distarray := [0, 0, 0, 0], lux_arr := [0, 0, 0, 0] }

/-- The storage step of `loop()` in `part_000` (lines 262–278): the readings
are written unconditionally at `indiceAmostra`, the index advances circularly
and `amostrasColetadas` saturates at `NUM_AMOSTRAS`. -/
def coleta (distancia lux : ℚ) (s : StateB) : StateB :=
  { s with distarray := s.distarray.set s.indiceAmostra distancia
           lux_arr := s.lux_arr.set s.indiceAmostra lux
           indiceAmostra := (s.indiceAmostra + 1) % NUM_AMOSTRAS
           amostrasColetadas :=
             if s.amostrasColetadas < NUM_AMOSTRAS then
               s.amostrasColetadas + 1
             else s.amostrasColetadas }

/-- The dispatch check of `loop()` in `part_000` (lines 280–315), applied to
the post-storage state: when the buffer has just completed a revolution
(`amostrasColetadas == NUM_AMOSTRAS && proximoIndice == 0`), the means of
the arrays are computed, the strict-threshold alerts derived and the record
dispatched; otherwise nothing is emitted. -/
def envio_quando_cheia (connected : Bool) (timestamp : ℤ) (s1 : StateB) :
    StateB × List Event :=
  if s1.amostrasColetadas = NUM_AMOSTRAS ∧ s1.indiceAmostra = 0 then
    (s1,
      enviar_dados_sheets connected
        (calcular_media s1.distarray NUM_AMOSTRAS)
        (calcular_media s1.lux_arr NUM_AMOSTRAS) timestamp
        (decide (calcular_media s1.distarray NUM_AMOSTRAS <
          LIMIAR_DISTANCIA_CM))
        (decide (calcular_media s1.lux_arr NUM_AMOSTRAS < LIMIAR_LUX)))
  else (s1, [])

/-- One pass of `loop()` in `part_000`: due-check, unconditional storage,
then the dispatch check on the updated state.  `connected` is the
`WiFi.status()` sample taken inside `enviar_dados_sheets`. -/
def loop (connected : Bool) (tempoAtual : ℕ) (distancia lux : ℚ)
    (timestamp : ℤ) (s : StateB) : StateB × List Event :=
  if LEITURA_INTERVALO_MS ≤ wrapSub tempoAtual s.ultimoTempoLeitura then
    envio_quando_cheia connected timestamp
      (coleta distancia lux { s with ultimoTempoLeitura := tempoAtual })
  else (s, [])

end Sheets

/-- The Sheets dispatch check never changes the aggregation state. -/
theorem Sheets.envio_quando_cheia_fst (connected : Bool) (timestamp : ℤ)
    (s1 : Sheets.StateB) :
    (Sheets.envio_quando_cheia connected timestamp s1).1 = s1 := by
  unfold Sheets.envio_quando_cheia
  split <;> rfl

/-- An accepted (valid) ingest in the ThingSpeak variant adds both readings
to the sums and increments the shared counter. -/
theorem ThingSpeak.coleta_valida (d l : ℚ) (s : ThingSpeak.StateA)
    (hd : d ≠ -1) (hl : l ≠ -2) :
    ThingSpeak.coleta d l s =
      { s with somaDistancia := s.somaDistancia + d
               somaLux := s.somaLux + l
               contadorAmostras := s.contadorAmostras + 1 } := by
  unfold ThingSpeak.coleta
  rw [if_pos ⟨hd, hl⟩]

/-- C4: the due-check `now - last >= interval`, computed with wraparound
(unsigned 32-bit) subtraction on a monotonically increasing tick counter,
fires exactly once per interval: with the last firing at real time `u`, the
check at real time `t` (counters taken mod 2³²) holds iff `t = u + interval`,
so counter overflow causes neither a missed nor a doubled interval. -/
theorem C4_due_check_exactly_once_per_interval (interval u t : ℕ)
    (hint : interval < MILLIS_MOD) (h1 : u < t) (h2 : t ≤ u + interval) :
    interval ≤ wrapSub t u ↔ t = u + interval := by
  unfold wrapSub MILLIS_MOD
  unfold MILLIS_MOD at hint
  omega

/-- Witness for C4 at the sampling interval of `Projeto_IoT.ino` (3000 ms),
across the 2³² counter wraparound: last fired 1000 ticks before overflow,
current time 2000 ticks after overflow. -/
theorem C4_witness :
    ThingSpeak.COLETA_INTERVALO_MS ≤ wrapSub 4294969296 4294966296 :=
  (C4_due_check_exactly_once_per_interval ThingSpeak.COLETA_INTERVALO_MS
    4294966296 4294969296 (by norm_num [ThingSpeak.COLETA_INTERVALO_MS,
      ThingSpeak.LEITURA_INTERVALO_MS, ThingSpeak.NUM_AMOSTRAS, MILLIS_MOD])
    (by norm_num) (by norm_num [ThingSpeak.COLETA_INTERVALO_MS,
      ThingSpeak.LEITURA_INTERVALO_MS, ThingSpeak.NUM_AMOSTRAS])).mpr
    (by norm_num [ThingSpeak.COLETA_INTERVALO_MS,
      ThingSpeak.LEITURA_INTERVALO_MS, ThingSpeak.NUM_AMOSTRAS])

/-- C1: feeding a full window of valid samples to a fresh aggregator makes
the reported mean per signal the arithmetic mean of exactly those samples,
under both accumulation strategies: five valid pairs through the running
sum/count accumulator give `contadorAmostras = NUM_AMOSTRAS` and means
`sum/5`; four pairs through the circular buffer give `calcular_media = sum/4`
for each signal. -/
theorem C1_mean_of_full_window
    (d1 d2 d3 d4 d5 l1 l2 l3 l4 l5 : ℚ)
    (hd1 : d1 ≠ -1) (hd2 : d2 ≠ -1) (hd3 : d3 ≠ -1) (hd4 : d4 ≠ -1)
    (hd5 : d5 ≠ -1)
    (hl1 : l1 ≠ -2) (hl2 : l2 ≠ -2) (hl3 : l3 ≠ -2) (hl4 : l4 ≠ -2)
    (hl5 : l5 ≠ -2)
    (e1 e2 e3 e4 m1 m2 m3 m4 : ℚ) :
    ((ThingSpeak.coleta d5 l5 (ThingSpeak.coleta d4 l4 (ThingSpeak.coleta d3 l3
        (ThingSpeak.coleta d2 l2 (ThingSpeak.coleta d1 l1
          ThingSpeak.estadoInicial))))).contadorAmostras =
        ThingSpeak.NUM_AMOSTRAS ∧
      (ThingSpeak.coleta d5 l5 (ThingSpeak.coleta d4 l4 (ThingSpeak.coleta d3 l3
        (ThingSpeak.coleta d2 l2 (ThingSpeak.coleta d1 l1
          ThingSpeak.estadoInicial))))).somaDistancia /
          (ThingSpeak.NUM_AMOSTRAS : ℚ) = (d1 + d2 + d3 + d4 + d5) / 5 ∧
      (ThingSpeak.coleta d5 l5 (ThingSpeak.coleta d4 l4 (ThingSpeak.coleta d3 l3
        (ThingSpeak.coleta d2 l2 (ThingSpeak.coleta d1 l1
          ThingSpeak.estadoInicial))))).somaLux /
          (ThingSpeak.NUM_AMOSTRAS : ℚ) = (l1 + l2 + l3 + l4 + l5) / 5) ∧
    (Sheets.calcular_media
        (Sheets.coleta e4 m4 (Sheets.coleta e3 m3 (Sheets.coleta e2 m2
          (Sheets.coleta e1 m1 Sheets.estadoInicial)))).distarray
        Sheets.NUM_AMOSTRAS = (e1 + e2 + e3 + e4) / 4 ∧
      Sheets.calcular_media
        (Sheets.coleta e4 m4 (Sheets.coleta e3 m3 (Sheets.coleta e2 m2
          (Sheets.coleta e1 m1 Sheets.estadoInicial)))).lux_arr
        Sheets.NUM_AMOSTRAS = (m1 + m2 + m3 + m4) / 4) := by
  constructor
  · rw [ThingSpeak.coleta_valida d1 l1 _ hd1 hl1,
      ThingSpeak.coleta_valida d2 l2 _ hd2 hl2,
      ThingSpeak.coleta_valida d3 l3 _ hd3 hl3,
      ThingSpeak.coleta_valida d4 l4 _ hd4 hl4,
      ThingSpeak.coleta_valida d5 l5 _ hd5 hl5]
    refine ⟨rfl, ?_, ?_⟩ <;>
      · simp [ThingSpeak.estadoInicial, ThingSpeak.NUM_AMOSTRAS]
        try ring
  · constructor <;>
      · simp [Sheets.coleta, Sheets.estadoInicial, Sheets.NUM_AMOSTRAS,
          Sheets.calcular_media, List.set]
        ring

/-- Witness for C1 on the spec's end-to-end inputs: distances
[40, 45, 50, 42, 38] and luxes [10, 8, 12, 5, 9] through the running-sum
variant (mean distance 43, mean lux 8.8), and the first four of each through
the circular-buffer variant. -/
theorem C1_witness :
    (ThingSpeak.coleta 38 9 (ThingSpeak.coleta 42 5 (ThingSpeak.coleta 50 12
        (ThingSpeak.coleta 45 8 (ThingSpeak.coleta 40 10
          ThingSpeak.estadoInicial))))).somaDistancia /
        (ThingSpeak.NUM_AMOSTRAS : ℚ) = (40 + 45 + 50 + 42 + 38) / 5 ∧
      Sheets.calcular_media
        (Sheets.coleta 42 5 (Sheets.coleta 50 12 (Sheets.coleta 45 8
          (Sheets.coleta 40 10 Sheets.estadoInicial)))).distarray
        Sheets.NUM_AMOSTRAS = (40 + 45 + 50 + 42) / 4 := by
  have h := C1_mean_of_full_window 40 45 50 42 38 10 8 12 5 9
    (by norm_num) (by norm_num) (by norm_num) (by norm_num) (by norm_num)
    (by norm_num) (by norm_num) (by norm_num) (by norm_num) (by norm_num)
    40 45 50 42 10 8 12 5
  exact ⟨h.1.2.1, h.2.1⟩

/-- C10: in the running sum/count variant, acceptance is all-or-nothing
across the two signals: the shared counter increments iff both the distance
reading differs from the `-1` sentinel and the lux reading differs from the
`-2` sentinel, and when either reading is invalid the whole state is
unchanged (the other, valid reading is discarded). -/
theorem C10_all_or_nothing_acceptance (d l : ℚ) (s : ThingSpeak.StateA) :
    ((ThingSpeak.coleta d l s).contadorAmostras = s.contadorAmostras + 1 ↔
      (d ≠ -1 ∧ l ≠ -2)) ∧
    ((d = -1 ∨ l = -2) → ThingSpeak.coleta d l s = s) := by
  constructor
  · unfold ThingSpeak.coleta
    split
    · simp
      assumption
    · simp
      tauto
  · intro h
    unfold ThingSpeak.coleta
    rw [if_neg]
    tauto

/-- Witness for C10: a valid distance of 7 cm is discarded without any state
change when paired with the lux error sentinel `-2`. -/
theorem C10_witness :
    ThingSpeak.coleta 7 (-2) ThingSpeak.estadoInicial =
      ThingSpeak.estadoInicial :=
  (C10_all_or_nothing_acceptance 7 (-2) ThingSpeak.estadoInicial).2
    (Or.inr rfl)

/-- C2 counterexample: in the circular-buffer variant (`part_000`) an
ingest of the luminosity device-not-ready sentinel `-3.0` does change the
window: a due tick on the fresh state raises `amostrasColetadas` from 0 to 1
(and stores `-3` in `lux_arr`), refuting the claim that invalid samples
leave the window unchanged in both accumulation variants. -/
theorem C2_counterexample :
    (Sheets.loop true 10000 10 (-3) 0 Sheets.estadoInicial).1.amostrasColetadas ≠
      Sheets.estadoInicial.amostrasColetadas ∧
    (Sheets.loop true 10000 10 (-3) 0 Sheets.estadoInicial).1.lux_arr =
      [-3, 0, 0, 0] := by
  constructor <;>
    simp [Sheets.loop, Sheets.envio_quando_cheia, Sheets.coleta,
      Sheets.estadoInicial, Sheets.LEITURA_INTERVALO_MS, Sheets.NUM_AMOSTRAS,
      wrapSub, MILLIS_MOD, List.set]

/-- C2 (amended): in the running sum/count variant an ingest of an invalid
sample (distance sentinel `-1` or lux sentinel `-2`) leaves the aggregation
state — hence sample count and any mean computed from it — unchanged. -/
theorem C2_invalid_sample_is_noop (d l : ℚ) (s : ThingSpeak.StateA)
    (h : d = -1 ∨ l = -2) : ThingSpeak.coleta d l s = s := by
  unfold ThingSpeak.coleta
  rw [if_neg]
  tauto

/-- Witness for C2: the distance out-of-range sentinel paired with a valid
lux reading of 5 leaves the fresh state untouched. -/
theorem C2_witness :
    ThingSpeak.coleta (-1) 5 ThingSpeak.estadoInicial =
      ThingSpeak.estadoInicial :=
  C2_invalid_sample_is_noop (-1) 5 ThingSpeak.estadoInicial (Or.inl rfl)

/-- C3 counterexample: the `proximidade()` of `part_000` applies no
plausibility filter: a pulse of 58 µs converts to about 0.99 cm — below the
2 cm minimum — yet is returned as-is rather than as the `-1` sentinel, and a
pulse of 24000 µs converts to 411.6 cm — above the 350 cm maximum — and is
also returned unfiltered. -/
theorem C3_counterexample :
    Sheets.proximidade 58 < ThingSpeak.MIN_VALID_DISTANCE_CM ∧
    Sheets.proximidade 58 ≠ -1 ∧
    ThingSpeak.MAX_DISTANCE_CM < Sheets.proximidade 24000 ∧
    Sheets.proximidade 24000 ≠ -1 := by
  refine ⟨?_, ?_, ?_, ?_⟩ <;>
    norm_num [Sheets.proximidade, ThingSpeak.MIN_VALID_DISTANCE_CM,
      ThingSpeak.MAX_DISTANCE_CM]

/-- C3 (amended): in the ThingSpeak variant, the distance sanity filter
rejects any value below the 2 cm minimum or above the 350 cm maximum,
yielding the `-1` out-of-range sentinel (never a clamped value), and returns
any in-range value unchanged; in particular 1 cm and 400 cm are rejected
while 50 cm is returned as-is.  (The Sheets variant applies no filter.) -/
theorem C3_distance_filter (d : ℚ) :
    (d < ThingSpeak.MIN_VALID_DISTANCE_CM ∨ ThingSpeak.MAX_DISTANCE_CM < d →
      ThingSpeak.filtroSanidade d = -1) ∧
    (ThingSpeak.MIN_VALID_DISTANCE_CM ≤ d → d ≤ ThingSpeak.MAX_DISTANCE_CM →
      ThingSpeak.filtroSanidade d = d) ∧
    (ThingSpeak.filtroSanidade 1 = -1 ∧ ThingSpeak.filtroSanidade 400 = -1 ∧
      ThingSpeak.filtroSanidade 50 = 50) := by
  refine ⟨?_, ?_, ?_, ?_, ?_⟩
  · intro h
    unfold ThingSpeak.filtroSanidade
    rw [if_pos]
    tauto
  · intro h1 h2
    unfold ThingSpeak.filtroSanidade
    rw [if_neg]
    push_neg
    exact ⟨h2, h1⟩
  · norm_num [ThingSpeak.filtroSanidade, ThingSpeak.MIN_VALID_DISTANCE_CM,
      ThingSpeak.MAX_DISTANCE_CM]
  · norm_num [ThingSpeak.filtroSanidade, ThingSpeak.MIN_VALID_DISTANCE_CM,
      ThingSpeak.MAX_DISTANCE_CM]
  · norm_num [ThingSpeak.filtroSanidade, ThingSpeak.MIN_VALID_DISTANCE_CM,
      ThingSpeak.MAX_DISTANCE_CM]

/-- Witness for C3: a 1 cm measurement is rejected through the filter's
below-minimum branch. -/
theorem C3_witness : ThingSpeak.filtroSanidade 1 = -1 :=
  (C3_distance_filter 1).1
    (Or.inl (by norm_num [ThingSpeak.MIN_VALID_DISTANCE_CM]))

/-- C5 counterexample: after a failed lazy initialization (first call with
`begin` failing, yielding the `-3` sentinel and leaving `bh1750_iniciado`
unset), the very next call re-attempts initialization; if the device is then
found, that call returns the real reading 42, not the sentinel — refuting
both "every subsequent call yields the sentinel until restart" and
"initialization is never re-attempted automatically". -/
theorem C5_counterexample :
    (Sheets.luminosidade false false 0).2 = -3 ∧
    (Sheets.luminosidade (Sheets.luminosidade false false 0).1 true 42).1 = true ∧
    (Sheets.luminosidade (Sheets.luminosidade false false 0).1 true 42).2 = 42 ∧
    ((42 : ℚ) ≠ -3) := by
  refine ⟨?_, ?_, ?_, ?_⟩ <;> norm_num [Sheets.luminosidade]

/-- C5 (amended): a failed first-use initialization yields the `-3`
device-not-ready sentinel and leaves the `bh1750_iniciado` flag unset, so
initialization is re-attempted on every subsequent call; the sentinel
persists exactly as long as `begin` keeps failing (every call of such a run
returns `-3` and the flag stays unset), while a call on which `begin`
succeeds latches the flag and returns the real reading. -/
theorem C5_lazy_init_retry (reading : ℚ) (calls : List (Bool × ℚ))
    (hall : ∀ c ∈ calls, c.1 = false) :
    Sheets.luminosidade false false reading = (false, -3) ∧
    Sheets.luminosidade false true reading = (true, reading) ∧
    Sheets.luminosidadeRun false calls =
      (false, calls.map fun _ => (-3 : ℚ)) := by
  refine ⟨by simp [Sheets.luminosidade], by simp [Sheets.luminosidade], ?_⟩
  induction calls with
  | nil => simp [Sheets.luminosidadeRun]
  | cons c cs ih =>
    have hc : c.1 = false := hall c (List.mem_cons_self c cs)
    have hcs : ∀ x ∈ cs, x.1 = false := fun x hx =>
      hall x (List.mem_cons_of_mem c hx)
    simp [Sheets.luminosidadeRun, Sheets.luminosidade, hc, ih hcs]

/-- Witness for C5: two consecutive calls with `begin` failing both return
the `-3` sentinel and leave the flag unset. -/
theorem C5_witness :
    Sheets.luminosidadeRun false [(false, 5), (false, 7)] =
      (false, [-3, -3]) := by
  have h := C5_lazy_init_retry 9 [(false, 5), (false, 7)] (by simp)
  simpa using h.2.2

/-- C6: a completed window dispatched while the connection is absent
performs zero request attempts and produces exactly one offline-skip log,
and the aggregation window is still reset for the next cycle: in the Sheets
variant the post-state equals the online post-state, with the write cursor
back at 0; in the ThingSpeak variant the sums and counter are cleared. -/
theorem C6_offline_dispatch_skipped
    (t : ℕ) (d l : ℚ) (ts : ℤ) (sB : Sheets.StateB)
    (hdue : Sheets.LEITURA_INTERVALO_MS ≤ wrapSub t sB.ultimoTempoLeitura)
    (hidx : sB.indiceAmostra = 3) (hcnt : sB.amostrasColetadas = 3)
    (sA : ThingSpeak.StateA) (tA : ℕ) (dA lA : ℚ) (mac : String)
    (hfullA : ThingSpeak.NUM_AMOSTRAS ≤ sA.contadorAmostras)
    (hnodue : wrapSub tA sA.ultimoTempoColeta <
      ThingSpeak.COLETA_INTERVALO_MS) :
    ((Sheets.loop false t d l ts sB).2 = [Event.logOffline] ∧
      (Sheets.loop false t d l ts sB).1.indiceAmostra = 0 ∧
      (Sheets.loop false t d l ts sB).1 = (Sheets.loop true t d l ts sB).1) ∧
    ThingSpeak.loop true false tA dA lA mac sA =
      (ThingSpeak.reinicia sA, [Event.logOffline]) := by
  constructor
  · refine ⟨?_, ?_, ?_⟩ <;>
      simp [Sheets.loop, Sheets.envio_quando_cheia, Sheets.coleta,
        Sheets.enviar_dados_sheets, Sheets.NUM_AMOSTRAS, hdue, hidx, hcnt]
  · have hno : ¬ (ThingSpeak.COLETA_INTERVALO_MS ≤
        wrapSub tA sA.ultimoTempoColeta) := Nat.not_le.mpr hnodue
    simp [ThingSpeak.loop, ThingSpeak.enviar_dados_thingspeak, hno, hfullA]

/-- Witness for C6: a Sheets window completing its fourth sample while
offline yields only the skip log, and a full ThingSpeak accumulator
dispatched while offline is reset with only the skip log. -/
theorem C6_witness :
    (Sheets.loop false 10000 4 7 0
        ⟨0, 3, 3, [1, 2, 3, 0], [4, 5, 6, 0]⟩).2 = [Event.logOffline] ∧
    ThingSpeak.loop true false 1000 9 9 "" ⟨0, 100, 50, 5⟩ =
      (ThingSpeak.reinicia ⟨0, 100, 50, 5⟩, [Event.logOffline]) := by
  have h := C6_offline_dispatch_skipped 10000 4 7 0
    ⟨0, 3, 3, [1, 2, 3, 0], [4, 5, 6, 0]⟩
    (by norm_num [Sheets.LEITURA_INTERVALO_MS, wrapSub, MILLIS_MOD]) rfl rfl
    ⟨0, 100, 50, 5⟩ 1000 9 9 "" (by norm_num [ThingSpeak.NUM_AMOSTRAS])
    (by norm_num [ThingSpeak.COLETA_INTERVALO_MS,
      ThingSpeak.LEITURA_INTERVALO_MS, ThingSpeak.NUM_AMOSTRAS, wrapSub,
      MILLIS_MOD])
  exact ⟨h.1.1, h.2⟩

/-- C7 counterexample: in the ThingSpeak variant the connectivity check at
the top of `loop()` returns early while offline, so at a due tick with valid
readings nothing is sampled or ingested (the counter stays 0), whereas the
same tick online ingests one sample: a connectivity loss does interrupt
aggregation in this variant. -/
theorem C7_counterexample :
    (ThingSpeak.loop false true 5000 10 20 ""
        ThingSpeak.estadoInicial).1.contadorAmostras = 0 ∧
    (ThingSpeak.loop true true 5000 10 20 ""
        ThingSpeak.estadoInicial).1.contadorAmostras = 1 := by
  constructor <;>
    norm_num [ThingSpeak.loop, ThingSpeak.coleta, ThingSpeak.estadoInicial,
      ThingSpeak.COLETA_INTERVALO_MS, ThingSpeak.LEITURA_INTERVALO_MS,
      ThingSpeak.NUM_AMOSTRAS, wrapSub, MILLIS_MOD]

/-- C7 (amended): in the Sheets variant aggregation is unaffected by
connectivity — the post-state of a loop pass is identical for any two
connectivity values, only the dispatch step differing — while in the
ThingSpeak variant an offline pass skips the whole loop body, leaving the
state unchanged and producing no events (no sampling occurs offline). -/
theorem C7_connectivity_vs_aggregation :
    (∀ (c c2 : Bool) (t : ℕ) (d l : ℚ) (ts : ℤ) (s : Sheets.StateB),
      (Sheets.loop c t d l ts s).1 = (Sheets.loop c2 t d l ts s).1) ∧
    (∀ (cs : Bool) (t : ℕ) (d l : ℚ) (mac : String)
      (s : ThingSpeak.StateA),
      ThingSpeak.loop false cs t d l mac s = (s, [])) := by
  constructor
  · intro c c2 t d l ts s
    simp only [Sheets.loop]
    split_ifs <;> simp [Sheets.envio_quando_cheia_fst]
  · intro cs t d l mac s
    simp [ThingSpeak.loop]

/-- C8: every dispatched record's alert flags are the pure strict-less-than
function of its two means and the static thresholds: any `postSheets` event
a loop pass emits carries `alertaProx = (distance < LIMIAR_DISTANCIA_CM)`
and `alertaLux = (lux < LIMIAR_LUX)`, with no dependence on prior state
(no hysteresis). -/
theorem C8_alert_flags_pure (c : Bool) (t : ℕ) (d l : ℚ) (ts : ℤ)
    (s : Sheets.StateB) (r : Registro)
    (hmem : Event.postSheets r ∈ (Sheets.loop c t d l ts s).2) :
    r.alertaProx = decide (r.distance < Sheets.LIMIAR_DISTANCIA_CM) ∧
    r.alertaLux = decide (r.lux < Sheets.LIMIAR_LUX) := by
  unfold Sheets.loop at hmem
  split at hmem
  · unfold Sheets.envio_quando_cheia Sheets.enviar_dados_sheets at hmem
    split at hmem
    · simp only [] at hmem
      split at hmem
      · simp at hmem
      · simp at hmem
        subst hmem
        exact ⟨rfl, rfl⟩
    · simp at hmem
  · simp at hmem

/-- Witness for C8: the record emitted by a completing online pass (means
177/4 cm and 35/4 lx) carries `alertaProx` equal to the strict comparison of
its mean distance with the threshold. -/
theorem C8_witness :
    (⟨177 / 4, 35 / 4, 0, true, true⟩ : Registro).alertaProx =
      decide ((⟨177 / 4, 35 / 4, 0, true, true⟩ : Registro).distance <
        Sheets.LIMIAR_DISTANCIA_CM) := by
  have hev : (Sheets.loop true 10000 42 5 0
      ⟨0, 3, 3, [40, 45, 50, 0], [10, 8, 12, 0]⟩).2 =
      [Event.postSheets ⟨177 / 4, 35 / 4, 0, true, true⟩] := by
    norm_num [Sheets.loop, Sheets.envio_quando_cheia, Sheets.coleta,
      Sheets.enviar_dados_sheets, Sheets.calcular_media, Sheets.NUM_AMOSTRAS,
      Sheets.LEITURA_INTERVALO_MS, Sheets.LIMIAR_DISTANCIA_CM,
      Sheets.LIMIAR_LUX, wrapSub, MILLIS_MOD, List.set]
  have h := C8_alert_flags_pure true 10000 42 5 0
    ⟨0, 3, 3, [40, 45, 50, 0], [10, 8, 12, 0]⟩
    ⟨177 / 4, 35 / 4, 0, true, true⟩ (by simp [hev])
  exact h.1

/-- C9: a window of zero samples reduces to 0 rather than dividing by zero:
`calcular_media` with `tamanho = 0` returns 0 for any array, and after the
ThingSpeak reset the counter is below `NUM_AMOSTRAS` (window not full) and
both means the dispatch would compute are 0. -/
theorem C9_empty_window_reduces_to_zero :
    (∀ arr : List ℚ, Sheets.calcular_media arr 0 = 0) ∧
    (∀ s : ThingSpeak.StateA,
      (ThingSpeak.reinicia s).contadorAmostras < ThingSpeak.NUM_AMOSTRAS ∧
      (ThingSpeak.reinicia s).somaDistancia / (ThingSpeak.NUM_AMOSTRAS : ℚ) = 0 ∧
      (ThingSpeak.reinicia s).somaLux / (ThingSpeak.NUM_AMOSTRAS : ℚ) = 0) := by
  constructor
  · intro arr
    simp [Sheets.calcular_media]
  · intro s
    refine ⟨?_, ?_, ?_⟩ <;>
      simp [ThingSpeak.reinicia, ThingSpeak.NUM_AMOSTRAS]
